import Mathlib

/-!
# Online-Judge: identity service and problem registration

A shallow embedding of `services/user.go` and of the `CreateProblem` handler of
`controller/problem.go`.

The packages `dao/mysql`, `dao/redis`, `pkg`, `pkg/jwt`, `pkg/resp`, `snowflake`
and `encoding/json` are not part of the embedded sources.  Their functions are
taken as parameters (`UserDeps`, `ProblemDeps`): each one maps its arguments and
the current state of the outside world to a result and a new state of the
world.  Every call a service makes is appended, with its arguments and its
result, to a trace, so that "was never called" and "was called once with these
arguments" are statements about that trace.  Logging through `zap` is left out.
-/

namespace OnlineJudge

/-! ## Go error values -/

/-- Go `error` values as far as `errors.Is` can tell them apart.
`errorString` is the `*errors.errorString` made by `errors.New` and by
`fmt.Errorf` without `%w`, `wrapError` the `*fmt.wrapError` made by
`fmt.Errorf` with `%w`; both are pointers and carry the address of their
allocation.  `value` is an error of a comparable non-pointer type (such as the
string type behind `redis.Nil`), given by its type name and its text.  None of
these types has an `Is` method.  The `nil` error is `none : Option GoError`. -/
inductive GoError where
  | errorString (addr : Nat) (msg : String)
  | wrapError (addr : Nat) (msg : String) (err : GoError)
  | value (typ : String) (msg : String)
  deriving DecidableEq, Repr

/-- Go's `==` on two non-nil error interface values: the dynamic types agree
and the pointers (or the values) are the same. -/
def GoError.same : GoError → GoError → Bool
  | .errorString a _, .errorString b _ => a == b
  | .wrapError a _ _, .wrapError b _ _ => a == b
  | .value t m, .value t' m' => t == t' && m == m'
  | _, _ => false

/-- The loop of `errors.is`: compare, then follow `Unwrap`. -/
def GoError.isChain : GoError → GoError → Bool
  | .wrapError a m inner, target =>
      (GoError.wrapError a m inner).same target || inner.isChain target
  | e, target => e.same target

/-- The function `errors.Is(err, target)`. -/
def errorsIs (err target : Option GoError) : Bool :=
  match err, target with
  | none, t => t.isNone
  | some _, none => false
  | some e, some t => e.isChain t

/-- The largest allocation address that occurs in an error chain. -/
def GoError.maxAddr : GoError → Nat
  | .errorString a _ => a
  | .wrapError a _ inner => max a inner.maxAddr
  | .value _ _ => 0

/-- The call `fmt.Errorf(msg)` with a format that has no verb: it allocates a new
`*errors.errorString`.  A new allocation has an address that no live object
has; `live` is the error value the result is going to be compared with, and the
address chosen is one past every address in it. -/
def fmtErrorf (live : Option GoError) (msg : String) : GoError :=
  .errorString (match live with
    | none => 0
    | some e => e.maxAddr + 1) msg

/-! ## Status values -/

/-- Modelled from the spec: the status constants of `pkg/resp` that the service
layer assigns to `response.Code`.  The package is not among the sources; the
spec calls them distinct status values, so they are the constructors of an
enumeration, under the names the services use. -/
inductive RespCode where
  | Success
  | SearchDBError
  | EmailAlreadyExist
  | UsernameAlreadyExist
  | ExpiredVerCode
  | ErrorVerCode
  | GenerateNodeError
  | EncryptPwdError
  | InsertNewUserError
  | NotExistUsername
  | ErrorPwd
  | NotExistUserID
  | DBDeleteError
  | InvalidateEmailFormat
  | SendCodeError
  | StoreVerCodeError
  | ProblemAlreadyExist
  | CreateProblemError
  deriving DecidableEq, Repr

/-- Modelled from the spec: the result codes of `pkg/resp` that the handlers
pass to `resp.ResponseError` and `resp.ResponseSuccess`. -/
inductive ResCode where
  | CodeSuccess
  | CodeInvalidParam
  | CodeTestCaseFormatError
  | CodeProblemExist
  | CodeInternalServerError
  | CodeProblemIDNotExist
  deriving DecidableEq, Repr

/-! ## Data -/

/-- The struct `services.UserService`. -/
structure UserService where
  UserID : Int
  UserName : String
  Password : String
  Email : String
  Code : String
  deriving DecidableEq, Repr

/-- The struct `resp.RegisterResponse`, as far as the services use it. -/
structure RegisterResponse where
  Code : RespCode
  Token : String
  deriving DecidableEq, Repr

/-- The struct `services.TestCase`. -/
structure TestCase where
  TID : String
  PID : String
  Input : String
  Expected : String
  deriving DecidableEq, Repr

/-- The struct `services.Problem`, with the fields `CreateProblem` fills. -/
structure Problem where
  ProblemID : String
  Title : String
  Content : String
  Difficulty : String
  MaxRuntime : Int
  MaxMemory : Int
  TestCases : List TestCase
  deriving DecidableEq, Repr

/-! ## Calls to the outside world -/

/-- One call to a collaborator: its arguments, then what it returned. -/
inductive Call where
  | checkEmail (email : String) (err : Option GoError) (count : Int)
  | checkUsername (username : String) (err : Option GoError) (count : Int)
  | checkUserID (uid : Int) (err : Option GoError) (count : Int)
  | checkPwd (username password : String) (ok : Bool) (err : Option GoError)
  | insertNewUser (uid : Int) (username password email : String) (err : Option GoError)
  | updateUserDetail (uid : Int) (email password : String) (err : Option GoError)
  | getVerificationCode (email : String) (code : String) (err : Option GoError)
  | getPictureCode (username : String) (ans : String) (err : Option GoError)
  | storeVerificationCode (email code : String) (ts : Int) (err : Option GoError)
  | newNode (node : Int) (err : Option GoError)
  | generate (id : Int)
  | cryptoPwd (password : String) (hash : String) (err : Option GoError)
  | generateToken (username : String) (token : String)
  | createVerificationCode (code : String) (ts : Int)
  | sendCode (email code : String) (err : Option GoError)
  | getUUID (uuid : String)
  | createProblem (p : Problem) (code : RespCode)
  | responseError (code : ResCode)
  | responseSuccess (code : ResCode)
  deriving DecidableEq, Repr

/-- The outside world together with the trace of the calls made so far. -/
structure Sys (σ : Type) where
  world : σ
  trace : List Call

/-- Record a call and move to the world it left behind. -/
def Sys.step {σ : Type} (s : Sys σ) (w : σ) (c : Call) : Sys σ :=
  ⟨w, s.trace ++ [c]⟩

/-- The collaborators of `services/user.go`.  A function that reports a count
through a pointer argument (`mysql.CheckEmail(email, &count)`) returns the
value the counter holds after the call. -/
structure UserDeps (σ : Type) where
  CheckEmail : String → σ → (Option GoError × Int) × σ
  CheckUsername : String → σ → (Option GoError × Int) × σ
  CheckUserID : Int → σ → (Option GoError × Int) × σ
  CheckPwd : String → String → σ → (Bool × Option GoError) × σ
  InsertNewUser : Int → String → String → String → σ → Option GoError × σ
  UpdateUserDetail : Int → String → String → σ → Option GoError × σ
  GetVerificationCode : String → σ → (String × Option GoError) × σ
  GetPictureCode : String → σ → (String × Option GoError) × σ
  StoreVerificationCode : String → String → Int → σ → Option GoError × σ
  NewNode : Int → σ → Option GoError × σ
  Generate : σ → Int × σ
  CryptoPwd : String → σ → (String × Option GoError) × σ
  GenerateToken : String → σ → String × σ
  ValidateEmail : String → Bool
  CreateVerificationCode : σ → (String × Int) × σ
  SendCode : String → String → σ → Option GoError × σ

section Calls

variable {σ : Type}

/-- The call `mysql.CheckEmail`, traced. -/
def callCheckEmail (d : UserDeps σ) (email : String) (s : Sys σ) :
    (Option GoError × Int) × Sys σ :=
  let r := d.CheckEmail email s.world
  (r.1, s.step r.2 (.checkEmail email r.1.1 r.1.2))

/-- The call `mysql.CheckUsername`, traced. -/
def callCheckUsername (d : UserDeps σ) (username : String) (s : Sys σ) :
    (Option GoError × Int) × Sys σ :=
  let r := d.CheckUsername username s.world
  (r.1, s.step r.2 (.checkUsername username r.1.1 r.1.2))

/-- The call `mysql.CheckUserID`, traced. -/
def callCheckUserID (d : UserDeps σ) (uid : Int) (s : Sys σ) :
    (Option GoError × Int) × Sys σ :=
  let r := d.CheckUserID uid s.world
  (r.1, s.step r.2 (.checkUserID uid r.1.1 r.1.2))

/-- The call `mysql.CheckPwd`, traced. -/
def callCheckPwd (d : UserDeps σ) (username password : String) (s : Sys σ) :
    (Bool × Option GoError) × Sys σ :=
  let r := d.CheckPwd username password s.world
  (r.1, s.step r.2 (.checkPwd username password r.1.1 r.1.2))

/-- The call `mysql.InsertNewUser`, traced. -/
def callInsertNewUser (d : UserDeps σ) (uid : Int) (username password email : String)
    (s : Sys σ) : Option GoError × Sys σ :=
  let r := d.InsertNewUser uid username password email s.world
  (r.1, s.step r.2 (.insertNewUser uid username password email r.1))

/-- The call `mysql.UpdateUserDetail`, traced. -/
def callUpdateUserDetail (d : UserDeps σ) (uid : Int) (email password : String)
    (s : Sys σ) : Option GoError × Sys σ :=
  let r := d.UpdateUserDetail uid email password s.world
  (r.1, s.step r.2 (.updateUserDetail uid email password r.1))

/-- The call `redis.GetVerificationCode`, traced. -/
def callGetVerificationCode (d : UserDeps σ) (email : String) (s : Sys σ) :
    (String × Option GoError) × Sys σ :=
  let r := d.GetVerificationCode email s.world
  (r.1, s.step r.2 (.getVerificationCode email r.1.1 r.1.2))

/-- The call `redis.GetPictureCode`, traced. -/
def callGetPictureCode (d : UserDeps σ) (username : String) (s : Sys σ) :
    (String × Option GoError) × Sys σ :=
  let r := d.GetPictureCode username s.world
  (r.1, s.step r.2 (.getPictureCode username r.1.1 r.1.2))

/-- The call `snowflake.NewNode`, traced; only the error is kept of its result. -/
def callNewNode (d : UserDeps σ) (node : Int) (s : Sys σ) : Option GoError × Sys σ :=
  let r := d.NewNode node s.world
  (r.1, s.step r.2 (.newNode node r.1))

/-- The call `node.Generate()`, traced. -/
def callGenerate (d : UserDeps σ) (s : Sys σ) : Int × Sys σ :=
  let r := d.Generate s.world
  (r.1, s.step r.2 (.generate r.1))

/-- The call `pkg.CryptoPwd`, traced. -/
def callCryptoPwd (d : UserDeps σ) (password : String) (s : Sys σ) :
    (String × Option GoError) × Sys σ :=
  let r := d.CryptoPwd password s.world
  (r.1, s.step r.2 (.cryptoPwd password r.1.1 r.1.2))

/-- The call `jwt.GenerateToken`, traced. -/
def callGenerateToken (d : UserDeps σ) (username : String) (s : Sys σ) : String × Sys σ :=
  let r := d.GenerateToken username s.world
  (r.1, s.step r.2 (.generateToken username r.1))

end Calls

/-! ## services/user.go -/

section UserServices

variable {σ : Type}

/-- The method `UserService.Register`.  The receiver is a pointer, so the
updated receiver is returned with the response. -/
def Register (d : UserDeps σ) (u : UserService) (s0 : Sys σ) :
    RegisterResponse × UserService × Sys σ :=
  let r1 := callCheckEmail d u.Email s0
  let err := r1.1.1
  let countEmail := r1.1.2
  if err.isSome then (⟨.SearchDBError, ""⟩, u, r1.2)
  else if countEmail > 0 then (⟨.EmailAlreadyExist, ""⟩, u, r1.2)
  else
  let r2 := callCheckUsername d u.UserName r1.2
  let err := r2.1.1
  let countUsername := r2.1.2
  if err.isSome then (⟨.SearchDBError, ""⟩, u, r2.2)
  else if countUsername > 0 then (⟨.UsernameAlreadyExist, ""⟩, u, r2.2)
  else
  let r3 := callGetVerificationCode d u.Email r2.2
  let code := r3.1.1
  let err := r3.1.2
  if errorsIs err (some (fmtErrorf err "verification code expired")) then
    (⟨.ExpiredVerCode, ""⟩, u, r3.2)
  else if code ≠ u.Code then (⟨.ErrorVerCode, ""⟩, u, r3.2)
  else
  let r4 := callNewNode d 1 r3.2
  let err := r4.1
  if err.isSome then (⟨.GenerateNodeError, ""⟩, u, r4.2)
  else
  let r5 := callGenerate d r4.2
  let u1 := { u with UserID := r5.1 }
  let r6 := callCryptoPwd d u1.Password r5.2
  let u2 := { u1 with Password := r6.1.1 }
  let err := r6.1.2
  if err.isSome then (⟨.EncryptPwdError, ""⟩, u2, r6.2)
  else
  let uID := u2.UserID
  let userName := u2.UserName
  let passWord := u2.Password
  let email := u2.Email
  let r7 := callInsertNewUser d uID userName passWord email r6.2
  let err := r7.1
  if err.isSome then (⟨.InsertNewUserError, ""⟩, u2, r7.2)
  else
  let r8 := callGenerateToken d u2.UserName r7.2
  let token := r8.1
  (⟨.Success, token⟩, u2, r8.2)

/-- The method `UserService.Login`. -/
def Login (d : UserDeps σ) (u : UserService) (s0 : Sys σ) : RegisterResponse × Sys σ :=
  let r1 := callGetVerificationCode d u.Email s0
  let code := r1.1.1
  let err := r1.1.2
  if errorsIs err (some (fmtErrorf err "verification code expired")) then
    (⟨.ExpiredVerCode, ""⟩, r1.2)
  else if code ≠ u.Code then (⟨.ErrorVerCode, ""⟩, r1.2)
  else
  let r2 := callCheckUsername d u.UserName r1.2
  let err := r2.1.1
  let UserNameCount := r2.1.2
  if err.isSome then (⟨.SearchDBError, ""⟩, r2.2)
  else if UserNameCount = 0 then (⟨.NotExistUsername, ""⟩, r2.2)
  else
  let r3 := callCheckPwd d u.UserName u.Password r2.2
  let ok := r3.1.1
  let err := r3.1.2
  if err.isSome then (⟨.SearchDBError, ""⟩, r3.2)
  else if !ok then (⟨.ErrorPwd, ""⟩, r3.2)
  else
  let r4 := callGenerateToken d u.UserName r3.2
  let token := r4.1
  (⟨.Success, token⟩, r4.2)

/-- The method `UserService.UpdateUserDetail`; the response carries only its
code.  `hashAndStore` is the part of the body after the email block. -/
def UpdateUserDetail (d : UserDeps σ) (u : UserService) (s0 : Sys σ) :
    RespCode × UserService × Sys σ :=
  let store := fun (u2 : UserService) (s : Sys σ) =>
    let r4 := callUpdateUserDetail d u2.UserID u2.Email u2.Password s
    let err := r4.1
    if err.isSome then (RespCode.SearchDBError, u2, r4.2)
    else (RespCode.Success, u2, r4.2)
  let hashAndStore := fun (s : Sys σ) =>
    if u.Password ≠ "" then
      let r3 := callCryptoPwd d u.Password s
      let u1 := { u with Password := r3.1.1 }
      let err := r3.1.2
      if err.isSome then (RespCode.EncryptPwdError, u1, r3.2)
      else store u1 r3.2
    else store u s
  let r1 := callCheckUserID d u.UserID s0
  let err := r1.1.1
  let UserIDCount := r1.1.2
  if err.isSome then (.SearchDBError, u, r1.2)
  else if UserIDCount = 0 then (.NotExistUserID, u, r1.2)
  else if u.Email ≠ "" then
    let r2 := callGetVerificationCode d u.Email r1.2
    let code := r2.1.1
    let err := r2.1.2
    if errorsIs err (some (fmtErrorf err "verification code expired")) then
      (.ExpiredVerCode, u, r2.2)
    else if code ≠ u.Code then (.ErrorVerCode, u, r2.2)
    else hashAndStore r2.2
  else hashAndStore r1.2

/-- The function `services.CheckCode`. -/
def CheckCode (d : UserDeps σ) (username code : String) (s0 : Sys σ) :
    (Bool × Option GoError) × Sys σ :=
  let r1 := callGetPictureCode d username s0
  let ans := r1.1.1
  let err := r1.1.2
  if err.isSome then ((true, err), r1.2)
  else if ans ≠ code then ((false, none), r1.2)
  else ((true, none), r1.2)

end UserServices

/-! ## controller/problem.go -/

/-- The form of a `problem-create` request, as `c.PostForm` and
`c.PostFormArray` read it. -/
structure CreateProblemForm where
  title : String
  content : String
  difficulty : String
  max_runtime : String
  max_memory : String
  test_cases : List String
  deriving DecidableEq, Repr

/-- A Go `map[string]string`, as the list of its entries. -/
abbrev StrMap := List (String × String)

/-- The two-valued index expression `v, ok := m[k]`. -/
def mapIndex (m : StrMap) (k : String) : String × Bool :=
  match m.lookup k with
  | some v => (v, true)
  | none => ("", false)

/-- The collaborators of the `CreateProblem` handler.  `Atoi` is `strconv.Atoi`
with its error dropped, `Unmarshal` is `json.Unmarshal` into a new
`map[string]string` (its error and the map it leaves behind), `CreateProblem`
is the method of `services.Problem` (the code of its response). -/
structure ProblemDeps (σ : Type) where
  Atoi : String → Int
  Unmarshal : String → Option GoError × StrMap
  GetUUID : σ → String × σ
  CreateProblem : Problem → σ → RespCode × σ

section Controller

variable {σ : Type}

/-- The call `pkg.GetUUID`, traced. -/
def callGetUUID (d : ProblemDeps σ) (s : Sys σ) : String × Sys σ :=
  let r := d.GetUUID s.world
  (r.1, s.step r.2 (.getUUID r.1))

/-- The call `createProblem.CreateProblem()`, traced. -/
def callCreateProblem (d : ProblemDeps σ) (p : Problem) (s : Sys σ) : RespCode × Sys σ :=
  let r := d.CreateProblem p s.world
  (r.1, s.step r.2 (.createProblem p r.1))

/-- The call `resp.ResponseError(c, code)`, traced. -/
def responseError (code : ResCode) (s : Sys σ) : Sys σ :=
  s.step s.world (.responseError code)

/-- The call `resp.ResponseSuccess(c, code)`, traced. -/
def responseSuccess (code : ResCode) (s : Sys σ) : Sys σ :=
  s.step s.world (.responseSuccess code)

/-- The loop `for _, value := range testCase` of `CreateProblem`: `tCase` is the
slice built so far; `none` is the early `return` of the handler. -/
def testCaseLoop (d : ProblemDeps σ) (pid : String) :
    List String → List TestCase → Sys σ → Option (List TestCase) × Sys σ
  | [], tCase, s => (some tCase, s)
  | value :: rest, tCase, s =>
    let r := d.Unmarshal value
    let err := r.1
    let caseMap := r.2
    let iok := (mapIndex caseMap "input").2
    let ook := (mapIndex caseMap "expected").2
    if err.isSome || !iok || !ook then
      (none, responseError .CodeTestCaseFormatError s)
    else
      let t := callGetUUID d s
      testCaseLoop d pid rest
        (tCase ++ [⟨t.1, pid, (mapIndex caseMap "input").1, (mapIndex caseMap "expected").1⟩])
        t.2

/-- The handler `controller.CreateProblem`. -/
def CreateProblem (d : ProblemDeps σ) (c : CreateProblemForm) (s0 : Sys σ) : Sys σ :=
  let title := c.title
  let content := c.content
  let difficulty := c.difficulty
  let maxRuntime := d.Atoi c.max_runtime
  let maxMemory := d.Atoi c.max_memory
  let testCase := c.test_cases
  if testCase.length = 0 then responseError .CodeInvalidParam s0
  else
  let r1 := callGetUUID d s0
  let createProblem : Problem := ⟨r1.1, title, content, difficulty, maxRuntime, maxMemory, []⟩
  let r2 := testCaseLoop d createProblem.ProblemID testCase [] r1.2
  match r2.1 with
  | none => r2.2
  | some tCase =>
    let createProblem := { createProblem with TestCases := tCase }
    let response := callCreateProblem d createProblem r2.2
    match response.1 with
    | .Success => responseSuccess .CodeSuccess response.2
    | .ProblemAlreadyExist => responseError .CodeProblemExist response.2
    | .CreateProblemError => responseError .CodeInternalServerError response.2
    | _ => responseError .CodeInternalServerError response.2

end Controller

/-! ## Well-formed test cases -/

/-- A test-case string is well formed for a decoder when it decodes without an
error into a map that has the key `input` and the key `expected`. -/
def wellFormedCase {σ : Type} (d : ProblemDeps σ) (value : String) : Bool :=
  (d.Unmarshal value).1.isNone &&
    (mapIndex (d.Unmarshal value).2 "input").2 &&
    (mapIndex (d.Unmarshal value).2 "expected").2

/-- The `input` and `expected` strings a test-case string decodes to. -/
def decodedPayload {σ : Type} (d : ProblemDeps σ) (value : String) : String × String :=
  ((mapIndex (d.Unmarshal value).2 "input").1, (mapIndex (d.Unmarshal value).2 "expected").1)

/-- The calls a run made: the trace of the state it ended in, without the
trace it started from. -/
def callsSince {σ : Type} (s0 s1 : Sys σ) : List Call :=
  s1.trace.drop s0.trace.length

/-! ## A JSON decoder for the worked examples -/

/-- JSON white space: space, tab, line feed, carriage return. -/
def jsonSkipWs : List Char → List Char
  | [] => []
  | c :: cs =>
    if c.toNat = 32 ∨ c.toNat = 9 ∨ c.toNat = 10 ∨ c.toNat = 13 then jsonSkipWs cs
    else c :: cs

/-- The character a one-letter escape stands for. -/
def jsonUnescape (c : Char) : Option Char :=
  if c.toNat = 34 then some c
  else if c.toNat = 92 then some c
  else if c.toNat = 47 then some c
  else if c = 'b' then some (Char.ofNat 8)
  else if c = 'f' then some (Char.ofNat 12)
  else if c = 'n' then some (Char.ofNat 10)
  else if c = 'r' then some (Char.ofNat 13)
  else if c = 't' then some (Char.ofNat 9)
  else none

/-- Read a string literal after its opening quote: the text and the input
after the closing quote.  `acc` is the text so far, last character first. -/
def jsonString : List Char → List Char → Option (String × List Char)
  | [], _ => none
  | [c], acc => if c.toNat = 34 then some (String.mk acc.reverse, []) else none
  | c :: e :: cs, acc =>
    if c.toNat = 34 then some (String.mk acc.reverse, e :: cs)
    else if c.toNat = 92 then
      match jsonUnescape e with
      | some x => jsonString cs (x :: acc)
      | none => none
    else if c.toNat < 32 then none
    else jsonString (e :: cs) (c :: acc)

/-- Read one member `"key" : "value"`, the input standing at the opening quote
of the key. -/
def jsonMember (cs : List Char) : Option ((String × String) × List Char) :=
  match cs with
  | q :: cs1 =>
    if q.toNat = 34 then
      match jsonString cs1 [] with
      | some (k, cs2) =>
        match jsonSkipWs cs2 with
        | colon :: cs3 =>
          if colon = ':' then
            match jsonSkipWs cs3 with
            | q2 :: cs4 =>
              if q2.toNat = 34 then
                match jsonString cs4 [] with
                | some (v, cs5) => some ((k, v), cs5)
                | none => none
              else none
            | [] => none
          else none
        | [] => none
      | none => none
    else none
  | [] => none

/-- Read the members of an object after the first one: `m` is the map so far
(a later entry for a key replaces the earlier one), the input stands after a
member. -/
def jsonMembers : Nat → StrMap → List Char → Option StrMap
  | 0, _, _ => none
  | fuel + 1, m, cs =>
    match jsonSkipWs cs with
    | c :: cs1 =>
      if c = ',' then
        match jsonMember (jsonSkipWs cs1) with
        | some (kv, cs2) => jsonMembers fuel (kv :: m) cs2
        | none => none
      else if c.toNat = 125 then
        (if jsonSkipWs cs1 = [] then some m else none)
      else none
    | [] => none

/-- A decoder for the part of JSON the worked examples use: one object, all of
whose members are string literals with at most one-letter escapes.  On such a
document `json.Unmarshal` into a `map[string]string` returns no error and the
map of the members, a repeated key keeping its last value; that is what this
function returns.  Every other document is reported as an error with an empty
map, which is not what `encoding/json` does for all of them: the theorems that
hold for every decoder take the decoder as a parameter, and only worked
examples use this one. -/
def jsonUnmarshal (data : String) : Option GoError × StrMap :=
  let bad : Option GoError × StrMap := (some (.value "json" "cannot decode"), [])
  match jsonSkipWs data.toList with
  | c :: cs =>
    if c.toNat = 123 then
      match jsonSkipWs cs with
      | c1 :: cs1 =>
        if c1.toNat = 125 then
          (if jsonSkipWs cs1 = [] then (none, []) else bad)
        else
          match jsonMember (c1 :: cs1) with
          | some (kv, cs2) =>
            match jsonMembers (cs2.length + 1) [kv] cs2 with
            | some m => (none, m)
            | none => bad
          | none => bad
      | [] => bad
    else bad
  | [] => bad

/-! ## An in-memory world for worked examples -/

/-- One stored account: identifier, username, password hash, email. -/
structure Account where
  id : Int
  username : String
  hash : String
  email : String
  deriving DecidableEq, Repr

/-- A world small enough to compute with: the accounts of the store, the live
email codes and picture answers of the cache, the next identifier of the generator, the problems stored
and the number of identifiers handed out by `GetUUID`. -/
structure DemoWorld where
  users : List Account
  codes : List (String × String)
  pictures : List (String × String)
  nextID : Int
  problems : List Problem
  uuids : Nat
  deriving DecidableEq, Repr

/-- The hash of the example world. -/
def demoHash (password : String) : String := "hash:" ++ password

/-- The collaborators of `services/user.go` over `DemoWorld`.  No store or
cache call fails, except that reading a code that is not cached returns the
empty string with a `verification code expired` error made by `fmt.Errorf`. -/
def demoDeps : UserDeps DemoWorld where
  CheckEmail := fun email w => ((none, ((w.users.filter (fun a => a.email == email)).length : Int)), w)
  CheckUsername := fun name w =>
    ((none, ((w.users.filter (fun a => a.username == name)).length : Int)), w)
  CheckUserID := fun uid w => ((none, ((w.users.filter (fun a => a.id == uid)).length : Int)), w)
  CheckPwd := fun name password w =>
    ((w.users.any (fun a => a.username == name && a.hash == demoHash password), none), w)
  InsertNewUser := fun uid name hash email w =>
    (none, { w with users := w.users ++ [⟨uid, name, hash, email⟩] })
  UpdateUserDetail := fun uid email hash w =>
    (none, { w with users := w.users.map (fun a =>
      if a.id = uid then
        { a with email := if email = "" then a.email else email,
                 hash := if hash = "" then a.hash else hash }
      else a) })
  GetVerificationCode := fun email w =>
    match w.codes.lookup email with
    | some code => ((code, none), w)
    | none => (("", some (.errorString 0 "verification code expired")), w)
  GetPictureCode := fun name w =>
    match w.pictures.lookup name with
    | some ans => ((ans, none), w)
    | none => (("", some (.errorString 0 "picture code expired")), w)
  StoreVerificationCode := fun email code _ w => (none, { w with codes := (email, code) :: w.codes })
  NewNode := fun _ w => (none, w)
  Generate := fun w => (w.nextID, { w with nextID := w.nextID + 1 })
  CryptoPwd := fun password w => ((demoHash password, none), w)
  GenerateToken := fun name w => ("token:" ++ name, w)
  ValidateEmail := fun email => email.toList.any (fun c => c.toNat == 64)
  CreateVerificationCode := fun w => (("123456", 1700000000), w)
  SendCode := fun _ _ w => (none, w)

/-- The number a string of decimal digits stands for, and `0` for every other
string; signed numbers are not read. -/
def demoAtoi (str : String) : Int :=
  if str.toList ≠ [] ∧ str.toList.all (fun c => 48 ≤ c.toNat && c.toNat ≤ 57) then
    Int.ofNat (str.toList.foldl (fun n c => 10 * n + (c.toNat - 48)) 0)
  else 0

/-- The collaborators of the `CreateProblem` handler over `DemoWorld`, with
`jsonUnmarshal` for the decoder.  A title that is already stored is refused. -/
def demoProblemDeps : ProblemDeps DemoWorld where
  Atoi := demoAtoi
  Unmarshal := jsonUnmarshal
  GetUUID := fun w => ("uuid-" ++ toString w.uuids, { w with uuids := w.uuids + 1 })
  CreateProblem := fun p w =>
    if w.problems.any (fun q => q.Title == p.Title) then (.ProblemAlreadyExist, w)
    else (.Success, { w with problems := w.problems ++ [p] })

/-- An empty world. -/
def demoEmpty : DemoWorld := ⟨[], [], [], 1000, [], 0⟩

/-- A registration request of the examples. -/
def demoAlice : UserService := ⟨0, "alice", "pw1", "a@x.com", "123456"⟩

/-- The same request with an empty code. -/
def demoAliceNoCode : UserService := ⟨0, "alice", "pw1", "a@x.com", ""⟩

/-- A world whose cache holds the live code `123456` for `a@x.com`. -/
def demoCached : DemoWorld := { demoEmpty with codes := [("a@x.com", "123456")] }

/-- A world in which `a@x.com` already belongs to an account. -/
def demoTaken : DemoWorld :=
  { demoEmpty with users := [⟨7, "bob", demoHash "pw0", "a@x.com"⟩] }

/-- A world in which `alice` is registered and the cache holds a live code for
her email. -/
def demoRegistered : DemoWorld :=
  { demoEmpty with
    users := [⟨1000, "alice", demoHash "pw1", "a@x.com"⟩]
    codes := [("a@x.com", "123456")] }

/-- A world in which account `1000` exists and no code is cached. -/
def demoNoCode : DemoWorld :=
  { demoEmpty with users := [⟨1000, "alice", demoHash "pw1", "a@x.com"⟩] }

/-- A request to change the email of account `1000` without changing its
password. -/
def demoUpdate : UserService := ⟨1000, "", "", "a@x.com", "123456"⟩

/-- A request to change the email and the password of account `1000` with an
empty code. -/
def demoUpdateNoCode : UserService := ⟨1000, "", "pw2", "b@x.com", ""⟩

/-- The same request with the code `123456`. -/
def demoUpdateWrongCode : UserService := ⟨1000, "", "pw2", "b@x.com", "123456"⟩

/-- A test case with an empty `input`. -/
def demoEmptyInputCase : String := "\x7b\"input\":\"\",\"expected\":\"x\"\x7d"

/-- A test case of the problem `Two Sum`. -/
def demoTwoSumCase : String := "\x7b\"input\":\"[2,7]\",\"expected\":\"[0,1]\"\x7d"

/-- A test case without the key `expected`. -/
def demoNoExpectedCase : String := "\x7b\"input\":\"1\"\x7d"

/-- A form for a problem with the given test cases. -/
def demoForm (cases : List String) : CreateProblemForm :=
  ⟨"Two Sum", "find two numbers", "easy", "1000", "64", cases⟩

/-! ## Theorems -/

section Theorems

variable {σ : Type}


/-- An error chain never matches an `errorString` whose address is larger than
every address in the chain. -/
theorem isChain_fresh (e : GoError) (a : Nat) (msg : String) (h : e.maxAddr < a) :
    e.isChain (.errorString a msg) = false := by
  induction e with
  | errorString b m =>
    simp only [GoError.maxAddr] at h
    simp [GoError.isChain, GoError.same]; omega
  | wrapError b m inner ih =>
    simp only [GoError.maxAddr] at h
    simp [GoError.isChain, GoError.same]
    exact ih (by omega)
  | value t m => simp [GoError.isChain, GoError.same]

/-- The function `errors.Is` never matches an error against one `fmt.Errorf` has
just made. -/
theorem errorsIs_fmtErrorf (err : Option GoError) (msg : String) :
    errorsIs err (some (fmtErrorf err msg)) = false := by
  cases err with
  | none => rfl
  | some e => exact isChain_fresh e _ msg (Nat.lt_succ_self _)

/-- What `callCheckEmail` adds to the trace. -/
theorem callCheckEmail_trace {d : UserDeps σ} {email : String} {s s1 : Sys σ}
    {r : Option GoError × Int} (h : callCheckEmail d email s = (r, s1)) :
    s1.trace = s.trace ++ [.checkEmail email r.1 r.2] := by
  simp only [callCheckEmail, Prod.mk.injEq] at h
  obtain ⟨rfl, rfl⟩ := h
  rfl

/-- What `callCheckUsername` adds to the trace. -/
theorem callCheckUsername_trace {d : UserDeps σ} {name : String} {s s1 : Sys σ}
    {r : Option GoError × Int} (h : callCheckUsername d name s = (r, s1)) :
    s1.trace = s.trace ++ [.checkUsername name r.1 r.2] := by
  simp only [callCheckUsername, Prod.mk.injEq] at h
  obtain ⟨rfl, rfl⟩ := h
  rfl

/-- What `callGetVerificationCode` adds to the trace. -/
theorem callGetVerificationCode_trace {d : UserDeps σ} {email : String} {s s1 : Sys σ}
    {r : String × Option GoError} (h : callGetVerificationCode d email s = (r, s1)) :
    s1.trace = s.trace ++ [.getVerificationCode email r.1 r.2] := by
  simp only [callGetVerificationCode, Prod.mk.injEq] at h
  obtain ⟨rfl, rfl⟩ := h
  rfl

/-- What `callNewNode` adds to the trace. -/
theorem callNewNode_trace {d : UserDeps σ} {n : Int} {s s1 : Sys σ}
    {r : Option GoError} (h : callNewNode d n s = (r, s1)) :
    s1.trace = s.trace ++ [.newNode n r] := by
  simp only [callNewNode, Prod.mk.injEq] at h
  obtain ⟨rfl, rfl⟩ := h
  rfl

/-- What `callGenerate` adds to the trace. -/
theorem callGenerate_trace {d : UserDeps σ} {s s1 : Sys σ}
    {r : Int} (h : callGenerate d s = (r, s1)) :
    s1.trace = s.trace ++ [.generate r] := by
  simp only [callGenerate, Prod.mk.injEq] at h
  obtain ⟨rfl, rfl⟩ := h
  rfl

/-- What `callCryptoPwd` adds to the trace. -/
theorem callCryptoPwd_trace {d : UserDeps σ} {p : String} {s s1 : Sys σ}
    {r : String × Option GoError} (h : callCryptoPwd d p s = (r, s1)) :
    s1.trace = s.trace ++ [.cryptoPwd p r.1 r.2] := by
  simp only [callCryptoPwd, Prod.mk.injEq] at h
  obtain ⟨rfl, rfl⟩ := h
  rfl

/-- What `callInsertNewUser` adds to the trace. -/
theorem callInsertNewUser_trace {d : UserDeps σ} {uid : Int} {n p e : String} {s s1 : Sys σ}
    {r : Option GoError} (h : callInsertNewUser d uid n p e s = (r, s1)) :
    s1.trace = s.trace ++ [.insertNewUser uid n p e r] := by
  simp only [callInsertNewUser, Prod.mk.injEq] at h
  obtain ⟨rfl, rfl⟩ := h
  rfl

/-- What `callGenerateToken` adds to the trace. -/
theorem callGenerateToken_trace {d : UserDeps σ} {n : String} {s s1 : Sys σ}
    {r : String} (h : callGenerateToken d n s = (r, s1)) :
    s1.trace = s.trace ++ [.generateToken n r] := by
  simp only [callGenerateToken, Prod.mk.injEq] at h
  obtain ⟨rfl, rfl⟩ := h
  rfl

/-- No call of `Register` returns `ExpiredVerCode`: the test that guards that
branch compares the cache error with a newly made error. -/
theorem Register_never_expired (d : UserDeps σ) (u : UserService) (s : Sys σ) :
    (Register d u s).1.Code ≠ .ExpiredVerCode := by
  simp only [Register, errorsIs_fmtErrorf]
  repeat' split
  all_goals first
    | exact fun h => RespCode.noConfusion h
    | exact absurd ‹false = true› Bool.false_ne_true


/-! ### Register -/

/-- C1: when the email check succeeds and counts at least one account, `Register`
returns `EmailAlreadyExist` with an empty token, and the email check is the
only call it makes: no username check, no cache read, no hash, no insert, no
token. -/
theorem Register_email_already_exists (d : UserDeps σ) (u : UserService) (s : Sys σ)
    (herr : (d.CheckEmail u.Email s.world).1.1 = none)
    (hcount : (d.CheckEmail u.Email s.world).1.2 > 0) :
    (Register d u s).1 = ⟨.EmailAlreadyExist, ""⟩ ∧
    (Register d u s).2.2.trace =
      s.trace ++ [.checkEmail u.Email none (d.CheckEmail u.Email s.world).1.2] ∧
    (Register d u s).2.2.world = (d.CheckEmail u.Email s.world).2 ∧
    (Register d u s).2.1 = u := by
  simp [Register, callCheckEmail, Sys.step, herr, hcount]

/-- An instance of C1: a registration for `a@x.com` at a world where that email
is taken. -/
theorem Register_email_already_exists_witness :
    (demoDeps.CheckEmail demoAlice.Email demoTaken).1.1 = none ∧
    (demoDeps.CheckEmail demoAlice.Email demoTaken).1.2 > 0 ∧
    ((Register demoDeps demoAlice ⟨demoTaken, []⟩).1 = ⟨.EmailAlreadyExist, ""⟩ ∧
    (Register demoDeps demoAlice ⟨demoTaken, []⟩).2.2.trace =
      [] ++ [.checkEmail demoAlice.Email none (demoDeps.CheckEmail demoAlice.Email demoTaken).1.2] ∧
    (Register demoDeps demoAlice ⟨demoTaken, []⟩).2.2.world = (demoDeps.CheckEmail demoAlice.Email demoTaken).2 ∧
    (Register demoDeps demoAlice ⟨demoTaken, []⟩).2.1 = demoAlice) :=
  ⟨by decide, by decide,
    Register_email_already_exists demoDeps demoAlice ⟨demoTaken, []⟩ (by decide) (by decide)⟩

/-- C2: `Register` at a world with no cached code, where the cache read returns
the empty string and a `verification code expired` error.  With an empty code
in the request the account is inserted and a token is returned; with the code
`123456` the status is `ErrorVerCode`, not `ExpiredVerCode`. -/
theorem Register_expired_code_unreported :
    (demoDeps.CheckEmail "a@x.com" demoEmpty).1 = (none, 0) ∧
    (demoDeps.CheckUsername "alice" demoEmpty).1 = (none, 0) ∧
    (demoDeps.GetVerificationCode "a@x.com" demoEmpty).1 =
      ("", some (.errorString 0 "verification code expired")) ∧
    (Register demoDeps demoAliceNoCode ⟨demoEmpty, []⟩).1 = ⟨.Success, "token:alice"⟩ ∧
    (Register demoDeps demoAliceNoCode ⟨demoEmpty, []⟩).2.2.trace =
      [.checkEmail "a@x.com" none 0, .checkUsername "alice" none 0,
       .getVerificationCode "a@x.com" "" (some (.errorString 0 "verification code expired")),
       .newNode 1 none, .generate 1000, .cryptoPwd "pw1" "hash:pw1" none,
       .insertNewUser 1000 "alice" "hash:pw1" "a@x.com" none,
       .generateToken "alice" "token:alice"] ∧
    (Register demoDeps demoAlice ⟨demoEmpty, []⟩).1 = ⟨.ErrorVerCode, ""⟩ := by
  decide

/-- C3: when `Register` returns `Success`, the calls it made are exactly the two
uniqueness checks, the cache read, `NewNode(1)`, `Generate`, one `CryptoPwd` on
the caller's password, one `InsertNewUser` and one `GenerateToken` on the
caller's username, each made in the world the previous call left behind.  The
arguments of `InsertNewUser` are the identifier `Generate` returned, the
caller's username, the hash `CryptoPwd` returned for the caller's password and
the caller's email; the token of the response is what `GenerateToken`
returned; the receiver holds the new identifier and the hash; the world is
the one `GenerateToken` left behind. -/
theorem Register_success_inserts_once (d : UserDeps σ) (u : UserService) (s : Sys σ)
    (h : (Register d u s).1.Code = .Success) :
    let r1 := d.CheckEmail u.Email s.world
    let r2 := d.CheckUsername u.UserName r1.2
    let r3 := d.GetVerificationCode u.Email r2.2
    let r4 := d.NewNode 1 r3.2
    let r5 := d.Generate r4.2
    let r6 := d.CryptoPwd u.Password r5.2
    let r7 := d.InsertNewUser r5.1 u.UserName r6.1.1 u.Email r6.2
    let r8 := d.GenerateToken u.UserName r7.2
    (Register d u s).1.Token = r8.1 ∧
    (Register d u s).2.1 = { u with UserID := r5.1, Password := r6.1.1 } ∧
    (Register d u s).2.2.world = r8.2 ∧
    (Register d u s).2.2.trace = s.trace ++
      [.checkEmail u.Email none r1.1.2, .checkUsername u.UserName none r2.1.2,
       .getVerificationCode u.Email r3.1.1 r3.1.2, .newNode 1 none, .generate r5.1,
       .cryptoPwd u.Password r6.1.1 none,
       .insertNewUser r5.1 u.UserName r6.1.1 u.Email none,
       .generateToken u.UserName r8.1] := by
  intro r1 r2 r3 r4 r5 r6 r7 r8
  obtain ⟨s1, hs1⟩ : ∃ x, x = s.step r1.2 (.checkEmail u.Email r1.1.1 r1.1.2) := ⟨_, rfl⟩
  obtain ⟨s2, hs2⟩ : ∃ x, x = s1.step r2.2 (.checkUsername u.UserName r2.1.1 r2.1.2) := ⟨_, rfl⟩
  obtain ⟨s3, hs3⟩ : ∃ x, x = s2.step r3.2 (.getVerificationCode u.Email r3.1.1 r3.1.2) :=
    ⟨_, rfl⟩
  obtain ⟨s4, hs4⟩ : ∃ x, x = s3.step r4.2 (.newNode 1 r4.1) := ⟨_, rfl⟩
  obtain ⟨s5, hs5⟩ : ∃ x, x = s4.step r5.2 (.generate r5.1) := ⟨_, rfl⟩
  obtain ⟨s6, hs6⟩ : ∃ x, x = s5.step r6.2 (.cryptoPwd u.Password r6.1.1 r6.1.2) := ⟨_, rfl⟩
  obtain ⟨s7, hs7⟩ : ∃ x, x = s6.step r7.2 (.insertNewUser r5.1 u.UserName r6.1.1 u.Email r7.1) :=
    ⟨_, rfl⟩
  obtain ⟨s8, hs8⟩ : ∃ x, x = s7.step r8.2 (.generateToken u.UserName r8.1) := ⟨_, rfl⟩
  have e1 : callCheckEmail d u.Email s = (r1.1, s1) := by rw [hs1]; rfl
  have e2 : callCheckUsername d u.UserName s1 = (r2.1, s2) := by rw [hs2, hs1]; rfl
  have e3 : callGetVerificationCode d u.Email s2 = (r3.1, s3) := by rw [hs3, hs2]; rfl
  have e4 : callNewNode d 1 s3 = (r4.1, s4) := by rw [hs4, hs3]; rfl
  have e5 : callGenerate d s4 = (r5.1, s5) := by rw [hs5, hs4]; rfl
  have e6 : callCryptoPwd d u.Password s5 = (r6.1, s6) := by rw [hs6, hs5]; rfl
  have e7 : callInsertNewUser d r5.1 u.UserName r6.1.1 u.Email s6 = (r7.1, s7) := by
    rw [hs7, hs6]; rfl
  have e8 : callGenerateToken d u.UserName s7 = (r8.1, s8) := by rw [hs8, hs7]; rfl
  have w8 : s8.world = r8.2 := by rw [hs8]; rfl
  have t8 : s8.trace = s.trace ++
      [.checkEmail u.Email r1.1.1 r1.1.2, .checkUsername u.UserName r2.1.1 r2.1.2,
       .getVerificationCode u.Email r3.1.1 r3.1.2, .newNode 1 r4.1, .generate r5.1,
       .cryptoPwd u.Password r6.1.1 r6.1.2,
       .insertNewUser r5.1 u.UserName r6.1.1 u.Email r7.1,
       .generateToken u.UserName r8.1] := by
    rw [hs8, hs7, hs6, hs5, hs4, hs3, hs2, hs1]
    simp [Sys.step]
  simp only [Register, e1, e2, e3, e4, e5, e6, e7, e8, errorsIs_fmtErrorf] at h ⊢
  clear e1 e2 e3 e4 e5 e6 e7 e8 hs1 hs2 hs3 hs4 hs5 hs6 hs7 hs8
  generalize r8.1 = token at *
  generalize r8.2 = w at *
  generalize r7.1 = e7 at *
  generalize r6.1.1 = hash at *
  generalize r6.1.2 = e6 at *
  generalize r5.1 = id at *
  generalize r4.1 = e4 at *
  generalize r3.1.1 = code at *
  generalize r3.1.2 = e3 at *
  generalize r2.1.1 = e2 at *
  generalize r2.1.2 = n2 at *
  generalize r1.1.1 = e1 at *
  generalize r1.1.2 = n1 at *
  clear r1 r2 r3 r4 r5 r6 r7 r8
  rcases e1 with _ | x
  swap
  · simp only [Option.isSome, if_true] at h; simp at h
  simp only [Option.isSome, if_false, Bool.false_eq_true] at h ⊢
  by_cases c1 : 0 < n1
  · simp only [c1, if_true] at h; simp at h
  simp only [c1, if_false] at h ⊢
  rcases e2 with _ | x
  swap
  · simp only [Option.isSome, if_true] at h; simp at h
  simp only [Option.isSome, if_false, Bool.false_eq_true] at h ⊢
  by_cases c2 : 0 < n2
  · simp only [c2, if_true] at h; simp at h
  simp only [c2, if_false] at h ⊢
  by_cases c3 : code ≠ u.Code
  · rw [if_pos c3] at h; simp at h
  rw [if_neg c3] at h ⊢
  rcases e4 with _ | x
  swap
  · simp only [Option.isSome, if_true] at h; simp at h
  simp only [Option.isSome, if_false, Bool.false_eq_true] at h ⊢
  rcases e6 with _ | x
  swap
  · simp only [Option.isSome, if_true] at h; simp at h
  simp only [Option.isSome, if_false, Bool.false_eq_true] at h ⊢
  rcases e7 with _ | x
  swap
  · simp only [Option.isSome, if_true] at h; simp at h
  simp only [Option.isSome, if_false, Bool.false_eq_true] at h ⊢
  exact ⟨trivial, trivial, w8, t8⟩

/-- An instance of C3: a registration at a world whose cache holds the code of
the request. -/
theorem Register_success_inserts_once_witness :
    (Register demoDeps demoAlice ⟨demoCached, []⟩).1.Code = .Success ∧
    (let r1 := demoDeps.CheckEmail demoAlice.Email demoCached
    let r2 := demoDeps.CheckUsername demoAlice.UserName r1.2
    let r3 := demoDeps.GetVerificationCode demoAlice.Email r2.2
    let r4 := demoDeps.NewNode 1 r3.2
    let r5 := demoDeps.Generate r4.2
    let r6 := demoDeps.CryptoPwd demoAlice.Password r5.2
    let r7 := demoDeps.InsertNewUser r5.1 demoAlice.UserName r6.1.1 demoAlice.Email r6.2
    let r8 := demoDeps.GenerateToken demoAlice.UserName r7.2
    (Register demoDeps demoAlice ⟨demoCached, []⟩).1.Token = r8.1 ∧
    (Register demoDeps demoAlice ⟨demoCached, []⟩).2.1 =
      { demoAlice with UserID := r5.1, Password := r6.1.1 } ∧
    (Register demoDeps demoAlice ⟨demoCached, []⟩).2.2.world = r8.2 ∧
    (Register demoDeps demoAlice ⟨demoCached, []⟩).2.2.trace = [] ++
      [.checkEmail demoAlice.Email none r1.1.2, .checkUsername demoAlice.UserName none r2.1.2,
       .getVerificationCode demoAlice.Email r3.1.1 r3.1.2, .newNode 1 none, .generate r5.1,
       .cryptoPwd demoAlice.Password r6.1.1 none,
       .insertNewUser r5.1 demoAlice.UserName r6.1.1 demoAlice.Email none,
       .generateToken demoAlice.UserName r8.1]) ∧
    (Register demoDeps demoAlice ⟨demoCached, []⟩).2.2.trace =
      [.checkEmail "a@x.com" none 0, .checkUsername "alice" none 0,
       .getVerificationCode "a@x.com" "123456" none, .newNode 1 none, .generate 1000,
       .cryptoPwd "pw1" "hash:pw1" none,
       .insertNewUser 1000 "alice" "hash:pw1" "a@x.com" none,
       .generateToken "alice" "token:alice"] :=
  ⟨by decide,
    Register_success_inserts_once demoDeps demoAlice ⟨demoCached, []⟩ (by decide),
    by decide⟩

/-! ### Login -/

/-- The decision chain of `Login`.  When the cache read reports no error the
response is `ErrorVerCode` if the code read differs from the code supplied,
else `SearchDBError` if the username lookup fails, else `NotExistUsername` if
the count is zero, else `SearchDBError` if the password check fails, else
`ErrorPwd` if the password check is false, else `Success` with the token of
`GenerateToken`.  Whatever the cache read reports, `Success` is returned only
if the string the cache call returned equals the code supplied, the username
exists and the password check passed, and the token is empty whenever the
status is not `Success`. -/
theorem Login_decision_chain (d : UserDeps σ) (u : UserService) (s : Sys σ) :
    let r1 := d.GetVerificationCode u.Email s.world
    let r2 := d.CheckUsername u.UserName r1.2
    let r3 := d.CheckPwd u.UserName u.Password r2.2
    let r4 := d.GenerateToken u.UserName r3.2
    (r1.1.2 = none →
      (Login d u s).1 =
        if r1.1.1 ≠ u.Code then ⟨.ErrorVerCode, ""⟩
        else if r2.1.1 ≠ none then ⟨.SearchDBError, ""⟩
        else if r2.1.2 = 0 then ⟨.NotExistUsername, ""⟩
        else if r3.1.2 ≠ none then ⟨.SearchDBError, ""⟩
        else if r3.1.1 = false then ⟨.ErrorPwd, ""⟩
        else ⟨.Success, r4.1⟩) ∧
    ((Login d u s).1.Code = .Success →
      r1.1.1 = u.Code ∧ r2.1.1 = none ∧ r2.1.2 ≠ 0 ∧ r3.1.2 = none ∧ r3.1.1 = true ∧
      (Login d u s).1.Token = r4.1) ∧
    ((Login d u s).1.Code ≠ .Success → (Login d u s).1.Token = "") := by
  intro r1 r2 r3 r4
  have e1 : callGetVerificationCode d u.Email s =
      (r1.1, s.step r1.2 (.getVerificationCode u.Email r1.1.1 r1.1.2)) := rfl
  have e2 : callCheckUsername d u.UserName (s.step r1.2 (.getVerificationCode u.Email r1.1.1 r1.1.2)) =
      (r2.1, (s.step r1.2 (.getVerificationCode u.Email r1.1.1 r1.1.2)).step r2.2
        (.checkUsername u.UserName r2.1.1 r2.1.2)) := rfl
  have e3 : callCheckPwd d u.UserName u.Password
      ((s.step r1.2 (.getVerificationCode u.Email r1.1.1 r1.1.2)).step r2.2
        (.checkUsername u.UserName r2.1.1 r2.1.2)) =
      (r3.1, ((s.step r1.2 (.getVerificationCode u.Email r1.1.1 r1.1.2)).step r2.2
        (.checkUsername u.UserName r2.1.1 r2.1.2)).step r3.2
        (.checkPwd u.UserName u.Password r3.1.1 r3.1.2)) := rfl
  have e4 : (callGenerateToken d u.UserName
      (((s.step r1.2 (.getVerificationCode u.Email r1.1.1 r1.1.2)).step r2.2
        (.checkUsername u.UserName r2.1.1 r2.1.2)).step r3.2
        (.checkPwd u.UserName u.Password r3.1.1 r3.1.2))).1 = r4.1 := rfl
  simp only [Login, e1, e2, e3, e4, errorsIs_fmtErrorf]
  clear e1 e2 e3 e4
  generalize r4.1 = tok
  clear_value r1 r2 r3
  clear r4
  obtain ⟨⟨code, e1⟩, w1⟩ := r1
  obtain ⟨⟨e2, n2⟩, w2⟩ := r2
  obtain ⟨⟨ok, e3⟩, w3⟩ := r3
  simp only []
  by_cases c1 : code ≠ u.Code
  · simp [c1]
  rw [if_neg c1, if_neg c1]
  rcases e2 with _ | x2
  swap
  · simp
  by_cases c2 : n2 = 0
  · simp [c2]
  rcases e3 with _ | x3
  swap
  · simp [c2]
  cases ok <;> simp [c2, not_not.mp c1]

/-- The decision chain at a world where `alice` is registered and her code is
cached: it ends in `Success`. -/
theorem Login_decision_chain_witness :
    (demoDeps.GetVerificationCode demoAlice.Email demoRegistered).1.2 = none ∧
    (Login demoDeps demoAlice ⟨demoRegistered, []⟩).1 = ⟨.Success, "token:alice"⟩ :=
  ⟨by decide,
    ((Login_decision_chain demoDeps demoAlice ⟨demoRegistered, []⟩).1 (by decide)).trans
      (by decide)⟩

/-- No call of `Login` returns `ExpiredVerCode`. -/
theorem Login_never_expired (d : UserDeps σ) (u : UserService) (s : Sys σ) :
    (Login d u s).1.Code ≠ .ExpiredVerCode := by
  simp only [Login, errorsIs_fmtErrorf]
  repeat' split
  all_goals first
    | exact fun h => RespCode.noConfusion h
    | exact absurd ‹false = true› Bool.false_ne_true

/-- C4: `Login` at a world where `alice` is registered and no code is cached, so
that the cache read returns the empty string and a `verification code expired`
error.  With an empty code in the request and the right password, `Login`
checks the username and the password and returns `Success` with a token,
although no cached code was read. -/
theorem Login_expired_code_succeeds :
    (demoDeps.GetVerificationCode "a@x.com" demoNoCode).1 =
      ("", some (.errorString 0 "verification code expired")) ∧
    (Login demoDeps demoAliceNoCode ⟨demoNoCode, []⟩).1 = ⟨.Success, "token:alice"⟩ ∧
    (Login demoDeps demoAliceNoCode ⟨demoNoCode, []⟩).2.trace =
      [.getVerificationCode "a@x.com" "" (some (.errorString 0 "verification code expired")),
       .checkUsername "alice" none 1, .checkPwd "alice" "pw1" true none,
       .generateToken "alice" "token:alice"] := by
  decide

/-! ### UpdateUserDetail -/


/-- What `callCheckUserID` adds to the trace. -/
theorem callCheckUserID_trace {d : UserDeps σ} {uid : Int} {s s1 : Sys σ}
    {r : Option GoError × Int} (h : callCheckUserID d uid s = (r, s1)) :
    s1.trace = s.trace ++ [.checkUserID uid r.1 r.2] := by
  simp only [callCheckUserID, Prod.mk.injEq] at h
  obtain ⟨rfl, rfl⟩ := h
  rfl

/-- What `callUpdateUserDetail` adds to the trace. -/
theorem callUpdateUserDetail_trace {d : UserDeps σ} {uid : Int} {e p : String} {s s1 : Sys σ}
    {r : Option GoError} (h : callUpdateUserDetail d uid e p s = (r, s1)) :
    s1.trace = s.trace ++ [.updateUserDetail uid e p r] := by
  simp only [callUpdateUserDetail, Prod.mk.injEq] at h
  obtain ⟨rfl, rfl⟩ := h
  rfl

/-- No call of `UpdateUserDetail` returns `ExpiredVerCode`. -/
theorem UpdateUserDetail_never_expired (d : UserDeps σ) (u : UserService) (s : Sys σ) :
    (UpdateUserDetail d u s).1 ≠ .ExpiredVerCode := by
  simp only [UpdateUserDetail, errorsIs_fmtErrorf]
  repeat' split
  all_goals first
    | exact fun h => RespCode.noConfusion h
    | exact absurd ‹false = true› Bool.false_ne_true

/-- C8: `UpdateUserDetail` for an existing account with a new email, at a world
with no cached code, where the cache read returns the empty string and a
`verification code expired` error.  With an empty code in the request the
password is hashed and the store update is made with the new email; with the
code `123456` the status is `ErrorVerCode`, not `ExpiredVerCode`. -/
theorem UpdateUserDetail_expired_code_passes :
    (demoDeps.CheckUserID 1000 demoNoCode).1 = (none, 1) ∧
    (demoDeps.GetVerificationCode "b@x.com" demoNoCode).1 =
      ("", some (.errorString 0 "verification code expired")) ∧
    (UpdateUserDetail demoDeps demoUpdateNoCode ⟨demoNoCode, []⟩).1 = .Success ∧
    (UpdateUserDetail demoDeps demoUpdateNoCode ⟨demoNoCode, []⟩).2.2.trace =
      [.checkUserID 1000 none 1,
       .getVerificationCode "b@x.com" "" (some (.errorString 0 "verification code expired")),
       .cryptoPwd "pw2" "hash:pw2" none,
       .updateUserDetail 1000 "b@x.com" "hash:pw2" none] ∧
    (UpdateUserDetail demoDeps demoUpdateWrongCode ⟨demoNoCode, []⟩).1 =
      .ErrorVerCode := by
  decide

/-- With an empty password `UpdateUserDetail` leaves its receiver as it was and
calls nothing but `CheckUserID` on the user ID, `GetVerificationCode` on the
email and `UpdateUserDetail` on the user ID, the email and the empty string. -/
theorem UpdateUserDetail_calls (d : UserDeps σ) (u : UserService) (s : Sys σ)
    (hpw : u.Password = "") :
    (UpdateUserDetail d u s).2.1 = u ∧
    ∃ calls, (UpdateUserDetail d u s).2.2.trace = s.trace ++ calls ∧
      ∀ c ∈ calls, (∃ e n, c = .checkUserID u.UserID e n) ∨
        (∃ code e, c = .getVerificationCode u.Email code e) ∨
        (∃ e, c = .updateUserDetail u.UserID u.Email "" e) := by
  rcases h1 : callCheckUserID d u.UserID s with ⟨⟨e1, n1⟩, s1⟩
  rcases h2 : callGetVerificationCode d u.Email s1 with ⟨⟨code, e2⟩, s2⟩
  rcases h3 : callUpdateUserDetail d u.UserID u.Email "" s1 with ⟨e3, s3⟩
  rcases h4 : callUpdateUserDetail d u.UserID u.Email "" s2 with ⟨e4, s4⟩
  have t1 := callCheckUserID_trace h1
  have t2 := callGetVerificationCode_trace h2
  have t3 := callUpdateUserDetail_trace h3
  have t4 := callUpdateUserDetail_trace h4
  simp only [] at t1 t2
  simp only [UpdateUserDetail, hpw, h1, h2, h3, h4, errorsIs_fmtErrorf, ne_eq, not_true_eq_false,
    if_false, Bool.false_eq_true]
  clear h1 h2 h3 h4
  repeat' split
  all_goals refine ⟨rfl, ?_⟩
  all_goals simp only [t1, t2, t3, t4, List.append_assoc, List.append_cancel_left_eq, exists_eq_left']
  all_goals simp


/-- C9: two successive calls of `UpdateUserDetail` with an empty password.
Neither call invokes `CryptoPwd`, the receiver is left as it was, every store
update made receives the caller's user ID, the caller's email and the empty
string as the password, and so a store update of the first call and one of the
second have the same arguments. -/
theorem UpdateUserDetail_empty_password (d : UserDeps σ) (u : UserService) (s : Sys σ)
    (hpw : u.Password = "") :
    let run1 := UpdateUserDetail d u s
    let run2 := UpdateUserDetail d u run1.2.2
    run1.2.1 = u ∧
    ∃ calls1 calls2,
      run1.2.2.trace = s.trace ++ calls1 ∧
      run2.2.2.trace = s.trace ++ calls1 ++ calls2 ∧
      (∀ c ∈ calls1 ++ calls2,
        (∀ p h e, c ≠ .cryptoPwd p h e) ∧
        (∀ uid em pw e, c = .updateUserDetail uid em pw e →
          uid = u.UserID ∧ em = u.Email ∧ pw = "")) ∧
      (∀ uid em pw e uid2 em2 pw2 e2,
        Call.updateUserDetail uid em pw e ∈ calls1 →
        Call.updateUserDetail uid2 em2 pw2 e2 ∈ calls2 →
        uid = uid2 ∧ em = em2 ∧ pw = pw2) := by
  intro run1 run2
  obtain ⟨hu, calls1, ht1, hc1⟩ := UpdateUserDetail_calls d u s hpw
  obtain ⟨_, calls2, ht2, hc2⟩ := UpdateUserDetail_calls d u run1.2.2 hpw
  have key : ∀ c ∈ calls1 ++ calls2,
      (∀ p h e, c ≠ .cryptoPwd p h e) ∧
      (∀ uid em pw e, c = .updateUserDetail uid em pw e →
        uid = u.UserID ∧ em = u.Email ∧ pw = "") := by
    intro c hc
    have hc3 : (∃ e n, c = .checkUserID u.UserID e n) ∨
        (∃ code e, c = .getVerificationCode u.Email code e) ∨
        (∃ e, c = .updateUserDetail u.UserID u.Email "" e) := by
      rcases List.mem_append.mp hc with h | h
      · exact hc1 c h
      · exact hc2 c h
    rcases hc3 with ⟨e, n, rfl⟩ | ⟨code, e, rfl⟩ | ⟨e, rfl⟩
    · exact ⟨fun _ _ _ h => Call.noConfusion h, fun _ _ _ _ h => Call.noConfusion h⟩
    · exact ⟨fun _ _ _ h => Call.noConfusion h, fun _ _ _ _ h => Call.noConfusion h⟩
    · refine ⟨fun _ _ _ h => Call.noConfusion h, fun uid em pw e2 h => ?_⟩
      injection h with h1 h2 h3 h4
      exact ⟨h1.symm, h2.symm, h3.symm⟩
  refine ⟨hu, calls1, calls2, ht1, ?_, key, ?_⟩
  · show (UpdateUserDetail d u run1.2.2).2.2.trace = _
    rw [ht2]
    show (UpdateUserDetail d u s).2.2.trace ++ calls2 = _
    rw [ht1]
  · intro uid em pw e uid2 em2 pw2 e2 m1 m2
    obtain ⟨a1, a2, a3⟩ := (key _ (List.mem_append_left _ m1)).2 uid em pw e rfl
    obtain ⟨b1, b2, b3⟩ := (key _ (List.mem_append_right _ m2)).2 uid2 em2 pw2 e2 rfl
    exact ⟨a1.trans b1.symm, a2.trans b2.symm, a3.trans b3.symm⟩

/-- An instance of C9: two updates at a world where the account exists and the
code of the request is cached. -/
theorem UpdateUserDetail_empty_password_witness :
    demoUpdate.Password = "" ∧
    (let run1 := UpdateUserDetail demoDeps demoUpdate ⟨demoRegistered, []⟩
    let run2 := UpdateUserDetail demoDeps demoUpdate run1.2.2
    run1.2.1 = demoUpdate ∧
    ∃ calls1 calls2,
      run1.2.2.trace = [] ++ calls1 ∧
      run2.2.2.trace = [] ++ calls1 ++ calls2 ∧
      (∀ c ∈ calls1 ++ calls2,
        (∀ p h e, c ≠ .cryptoPwd p h e) ∧
        (∀ uid em pw e, c = .updateUserDetail uid em pw e →
          uid = demoUpdate.UserID ∧ em = demoUpdate.Email ∧ pw = "")) ∧
      (∀ uid em pw e uid2 em2 pw2 e2,
        Call.updateUserDetail uid em pw e ∈ calls1 →
        Call.updateUserDetail uid2 em2 pw2 e2 ∈ calls2 →
        uid = uid2 ∧ em = em2 ∧ pw = pw2)) :=
  ⟨by decide, UpdateUserDetail_empty_password demoDeps demoUpdate ⟨demoRegistered, []⟩ (by decide)⟩

/-! ### SendEmailCode -/

/-- The loop over well-formed strings ends without an early return: it adds one
test case per string, in order, with the decoded payloads and the given problem
identifier, and draws one identifier per test case. -/
theorem testCaseLoop_well_formed (d : ProblemDeps σ) (pid : String) (vs : List String) :
    ∀ (acc : List TestCase) (s : Sys σ), (∀ v ∈ vs, wellFormedCase d v = true) →
    ∃ tcs : List TestCase,
      (testCaseLoop d pid vs acc s).1 = some (acc ++ tcs) ∧
      (testCaseLoop d pid vs acc s).2.trace = s.trace ++ tcs.map (fun t => Call.getUUID t.TID) ∧
      tcs.map (fun t => (t.Input, t.Expected)) = vs.map (decodedPayload d) ∧
      ∀ t ∈ tcs, t.PID = pid := by
  induction vs with
  | nil =>
    intro acc s _
    exact ⟨[], by simp [testCaseLoop], by simp [testCaseLoop], rfl, by simp⟩
  | cons v rest ih =>
    intro acc s hwf
    have hv : wellFormedCase d v = true := hwf v (List.mem_cons_self _ _)
    simp only [wellFormedCase, Bool.and_eq_true, Option.isNone_iff_eq_none] at hv
    obtain ⟨⟨h1, h2⟩, h3⟩ := hv
    obtain ⟨tcs, e1, e2, e3, e4⟩ := ih
      (acc ++ [⟨(callGetUUID d s).1, pid, (mapIndex (d.Unmarshal v).2 "input").1,
        (mapIndex (d.Unmarshal v).2 "expected").1⟩]) (callGetUUID d s).2
      (fun x hx => hwf x (List.mem_cons_of_mem _ hx))
    refine ⟨⟨(callGetUUID d s).1, pid, (mapIndex (d.Unmarshal v).2 "input").1,
        (mapIndex (d.Unmarshal v).2 "expected").1⟩ :: tcs, ?_, ?_, ?_, ?_⟩
    · simp only [testCaseLoop, h1, h2, h3, Option.isSome_none, Bool.not_true, Bool.or_self,
        Bool.false_eq_true, if_false]
      rw [e1]; simp
    · simp only [testCaseLoop, h1, h2, h3, Option.isSome_none, Bool.not_true, Bool.or_self,
        Bool.false_eq_true, if_false]
      rw [e2]; simp [callGetUUID, Sys.step]
    · simp [e3, decodedPayload]
    · intro t ht
      rcases List.mem_cons.mp ht with rfl | h
      · rfl
      · exact e4 t h

/-- The loop over a list with an ill-formed string returns early: it draws
identifiers for the strings before the first ill-formed one and answers
`CodeTestCaseFormatError`. -/
theorem testCaseLoop_malformed (d : ProblemDeps σ) (pid : String) (vs : List String) :
    ∀ (acc : List TestCase) (s : Sys σ), (∃ v ∈ vs, wellFormedCase d v = false) →
    ∃ ids : List String,
      (testCaseLoop d pid vs acc s).1 = none ∧
      (testCaseLoop d pid vs acc s).2.trace =
        s.trace ++ ids.map Call.getUUID ++ [.responseError .CodeTestCaseFormatError] := by
  induction vs with
  | nil =>
    intro acc s h
    obtain ⟨v, hv, _⟩ := h
    exact absurd hv (List.not_mem_nil _)
  | cons v rest ih =>
    intro acc s h
    by_cases hv : wellFormedCase d v = true
    · have hrest : ∃ x ∈ rest, wellFormedCase d x = false := by
        obtain ⟨x, hx, hxf⟩ := h
        rcases List.mem_cons.mp hx with rfl | hx
        · rw [hv] at hxf; exact absurd hxf (by decide)
        · exact ⟨x, hx, hxf⟩
      simp only [wellFormedCase, Bool.and_eq_true, Option.isNone_iff_eq_none] at hv
      obtain ⟨⟨h1, h2⟩, h3⟩ := hv
      obtain ⟨ids, e1, e2⟩ := ih
        (acc ++ [⟨(callGetUUID d s).1, pid, (mapIndex (d.Unmarshal v).2 "input").1,
          (mapIndex (d.Unmarshal v).2 "expected").1⟩]) (callGetUUID d s).2 hrest
      refine ⟨(callGetUUID d s).1 :: ids, ?_, ?_⟩
      · simp only [testCaseLoop, h1, h2, h3, Option.isSome_none, Bool.not_true, Bool.or_self,
          Bool.false_eq_true, if_false]
        exact e1
      · simp only [testCaseLoop, h1, h2, h3, Option.isSome_none, Bool.not_true, Bool.or_self,
          Bool.false_eq_true, if_false]
        rw [e2]; simp [callGetUUID, Sys.step]
    · refine ⟨[], ?_, ?_⟩
      · have hc : ((d.Unmarshal v).1.isSome || !(mapIndex (d.Unmarshal v).2 "input").2 ||
            !(mapIndex (d.Unmarshal v).2 "expected").2) = true := by
          simp only [wellFormedCase] at hv
          revert hv
          cases (d.Unmarshal v).1 <;> cases (mapIndex (d.Unmarshal v).2 "input").2 <;>
            cases (mapIndex (d.Unmarshal v).2 "expected").2 <;> simp
        simp only [testCaseLoop, hc, if_true]
      · have hc : ((d.Unmarshal v).1.isSome || !(mapIndex (d.Unmarshal v).2 "input").2 ||
            !(mapIndex (d.Unmarshal v).2 "expected").2) = true := by
          simp only [wellFormedCase] at hv
          revert hv
          cases (d.Unmarshal v).1 <;> cases (mapIndex (d.Unmarshal v).2 "input").2 <;>
            cases (mapIndex (d.Unmarshal v).2 "expected").2 <;> simp
        simp only [testCaseLoop, hc, if_true]
        simp [responseError, Sys.step]

/-- The calls made by a run whose trace extends the starting trace. -/
theorem callsSince_append (s0 s1 : Sys σ) (calls : List Call)
    (h : s1.trace = s0.trace ++ calls) : callsSince s0 s1 = calls := by
  simp [callsSince, h]

/-- The handler on an empty list of test cases. -/
theorem CreateProblem_empty (d : ProblemDeps σ) (c : CreateProblemForm) (s : Sys σ)
    (h : c.test_cases = []) :
    CreateProblem d c s = ⟨s.world, s.trace ++ [.responseError .CodeInvalidParam]⟩ := by
  simp [CreateProblem, h, responseError, Sys.step]

/-- The handler on a list with an ill-formed test case. -/
theorem CreateProblem_malformed (d : ProblemDeps σ) (c : CreateProblemForm) (s : Sys σ)
    (h : ∃ v ∈ c.test_cases, wellFormedCase d v = false) :
    ∃ ids : List String, (CreateProblem d c s).trace =
      s.trace ++ (ids.map Call.getUUID ++ [.responseError .CodeTestCaseFormatError]) := by
  have hne : ¬ c.test_cases.length = 0 := by
    obtain ⟨v, hv, _⟩ := h
    intro h0
    rw [List.length_eq_zero.mp h0] at hv
    exact absurd hv (List.not_mem_nil _)
  obtain ⟨ids, e1, e2⟩ :=
    testCaseLoop_malformed d (callGetUUID d s).1 c.test_cases [] (callGetUUID d s).2 h
  refine ⟨(callGetUUID d s).1 :: ids, ?_⟩
  simp only [CreateProblem, hne, if_false, e1]
  rw [e2]
  simp [callGetUUID, Sys.step]

/-- The handler on a non-empty list of well-formed test cases. -/
theorem CreateProblem_well_formed (d : ProblemDeps σ) (c : CreateProblemForm) (s : Sys σ)
    (hne : c.test_cases ≠ []) (hwf : ∀ v ∈ c.test_cases, wellFormedCase d v = true) :
    ∃ (p : Problem) (code : RespCode) (reply : Call),
      (CreateProblem d c s).trace = s.trace ++
        (Call.getUUID p.ProblemID :: p.TestCases.map (fun t => Call.getUUID t.TID) ++
          [.createProblem p code, reply]) ∧
      reply ∈ [Call.responseSuccess .CodeSuccess, .responseError .CodeProblemExist,
        .responseError .CodeInternalServerError] ∧
      p.ProblemID = (d.GetUUID s.world).1 ∧
      p.Title = c.title ∧ p.Content = c.content ∧ p.Difficulty = c.difficulty ∧
      p.TestCases.map (fun t => (t.Input, t.Expected)) = c.test_cases.map (decodedPayload d) ∧
      ∀ t ∈ p.TestCases, t.PID = p.ProblemID := by
  have hne : ¬ c.test_cases.length = 0 := fun h0 => hne (List.length_eq_zero.mp h0)
  obtain ⟨tcs, e1, e2, e3, e4⟩ :=
    testCaseLoop_well_formed d (callGetUUID d s).1 c.test_cases [] (callGetUUID d s).2 hwf
  rw [List.nil_append] at e1
  rcases h3 : callCreateProblem d
    ⟨(callGetUUID d s).1, c.title, c.content, c.difficulty, d.Atoi c.max_runtime,
      d.Atoi c.max_memory, tcs⟩
    (testCaseLoop d (callGetUUID d s).1 c.test_cases [] (callGetUUID d s).2).2 with ⟨code, s3⟩
  have t3 : s3.trace = (testCaseLoop d (callGetUUID d s).1 c.test_cases []
      (callGetUUID d s).2).2.trace ++ [.createProblem
        ⟨(callGetUUID d s).1, c.title, c.content, c.difficulty, d.Atoi c.max_runtime,
          d.Atoi c.max_memory, tcs⟩ code] := by
    simp only [callCreateProblem, Prod.mk.injEq] at h3
    obtain ⟨rfl, rfl⟩ := h3
    rfl
  rw [e2] at t3
  refine ⟨⟨(callGetUUID d s).1, c.title, c.content, c.difficulty, d.Atoi c.max_runtime,
      d.Atoi c.max_memory, tcs⟩, code, ?_⟩
  simp only [CreateProblem, hne, if_false, e1, h3]
  have e5 : ∀ t ∈ tcs, t.PID = (d.GetUUID s.world).1 := e4
  cases code <;>
    simp [responseSuccess, responseError, Sys.step, t3, callGetUUID, e3] <;> exact e5

/-- C5: the `CreateProblem` handler and ill-formed test cases.  For an empty
list it answers `CodeInvalidParam` and calls nothing else.  For a list with an
element that fails to decode or lacks `input` or `expected`, however many
well-formed elements precede it, the calls it makes are `GetUUID` calls
followed by the answer `CodeTestCaseFormatError`, so the persistence call is
not among them.  The persistence call is made only if the list is non-empty
and every element is well formed. -/
theorem CreateProblem_rejects_malformed (d : ProblemDeps σ) (c : CreateProblemForm)
    (s : Sys σ) :
    (c.test_cases = [] →
      CreateProblem d c s = ⟨s.world, s.trace ++ [.responseError .CodeInvalidParam]⟩) ∧
    ((∃ v ∈ c.test_cases, wellFormedCase d v = false) →
      ∃ ids : List String, callsSince s (CreateProblem d c s) =
        ids.map Call.getUUID ++ [.responseError .CodeTestCaseFormatError]) ∧
    ((∃ p code, Call.createProblem p code ∈ callsSince s (CreateProblem d c s)) →
      c.test_cases ≠ [] ∧ ∀ v ∈ c.test_cases, wellFormedCase d v = true) := by
  refine ⟨CreateProblem_empty d c s, ?_, ?_⟩
  · intro h
    obtain ⟨ids, e⟩ := CreateProblem_malformed d c s h
    exact ⟨ids, callsSince_append _ _ _ e⟩
  · rintro ⟨p, code, hmem⟩
    refine ⟨?_, ?_⟩
    · intro h0
      rw [CreateProblem_empty d c s h0] at hmem
      simp [callsSince] at hmem
    · intro v hv
      by_contra hbad
      obtain ⟨ids, e⟩ := CreateProblem_malformed d c s ⟨v, hv, by simpa using hbad⟩
      rw [callsSince_append _ _ _ e] at hmem
      simp at hmem

/-- An instance of C5: a list whose second element lacks `expected`.  Two
identifiers are drawn, the answer is `CodeTestCaseFormatError`, and nothing is
stored. -/
theorem CreateProblem_rejects_malformed_witness :
    (∃ v ∈ (demoForm [demoTwoSumCase, demoNoExpectedCase]).test_cases,
      wellFormedCase demoProblemDeps v = false) ∧
    (∃ ids : List String,
      callsSince ⟨demoEmpty, []⟩
        (CreateProblem demoProblemDeps (demoForm [demoTwoSumCase, demoNoExpectedCase])
          ⟨demoEmpty, []⟩) =
        ids.map Call.getUUID ++ [.responseError .CodeTestCaseFormatError]) ∧
    (CreateProblem demoProblemDeps (demoForm [demoTwoSumCase, demoNoExpectedCase])
      ⟨demoEmpty, []⟩).world.problems = [] :=
  ⟨by decide,
    (CreateProblem_rejects_malformed demoProblemDeps
      (demoForm [demoTwoSumCase, demoNoExpectedCase]) ⟨demoEmpty, []⟩).2.1 (by decide),
    by decide⟩

/-- C6, as the handler behaves: it accepts a test case whose `input` is the empty
string.  The element decodes to a map with both keys, `input` being empty, and
the handler hands a test case with the empty `Input` to the persistence call
and answers with success. -/
theorem CreateProblem_accepts_empty_input :
    demoProblemDeps.Unmarshal demoEmptyInputCase = (none, [("expected", "x"), ("input", "")]) ∧
    (CreateProblem demoProblemDeps (demoForm [demoEmptyInputCase]) ⟨demoEmpty, []⟩).trace =
      [.getUUID "uuid-0", .getUUID "uuid-1",
       .createProblem ⟨"uuid-0", "Two Sum", "find two numbers", "easy", 1000, 64,
         [⟨"uuid-1", "uuid-0", "", "x"⟩]⟩ .Success,
       .responseSuccess .CodeSuccess] := by
  decide

/-- C6, amended: the handler reaches the persistence call exactly when the list
is non-empty and every element decodes without error into a map that has the
key `input` and the key `expected`; the values under the keys play no part,
so an empty string is accepted. -/
theorem CreateProblem_persists_iff_keys_present (d : ProblemDeps σ) (c : CreateProblemForm)
    (s : Sys σ) :
    (∃ p code, Call.createProblem p code ∈ callsSince s (CreateProblem d c s)) ↔
      (c.test_cases ≠ [] ∧ ∀ v ∈ c.test_cases, wellFormedCase d v = true) := by
  constructor
  · rintro ⟨p, code, hmem⟩
    refine ⟨?_, ?_⟩
    · intro h0
      rw [CreateProblem_empty d c s h0] at hmem
      simp [callsSince] at hmem
    · intro v hv
      by_contra hbad
      obtain ⟨ids, e⟩ := CreateProblem_malformed d c s ⟨v, hv, by simpa using hbad⟩
      rw [callsSince_append _ _ _ e] at hmem
      simp at hmem
  · rintro ⟨hne, hwf⟩
    obtain ⟨p, code, reply, e, _⟩ := CreateProblem_well_formed d c s hne hwf
    refine ⟨p, code, ?_⟩
    rw [callsSince_append _ _ _ e]
    simp

/-- What `CheckCode` returns.  When the cache read reports no error the result is
whether the answer read equals the code supplied, with a `nil` error.  When
the cache read reports an error the result is `true` together with that error.
In both cases the cache read is the only call made. -/
theorem CheckCode_result (d : UserDeps σ) (username code : String) (s : Sys σ) :
    let r := d.GetPictureCode username s.world
    (r.1.2 = none → (CheckCode d username code s).1 = (decide (r.1.1 = code), none)) ∧
    (r.1.2 ≠ none → (CheckCode d username code s).1 = (true, r.1.2)) ∧
    (CheckCode d username code s).2.trace =
      s.trace ++ [.getPictureCode username r.1.1 r.1.2] := by
  intro r
  have e1 : callGetPictureCode d username s =
      (r.1, s.step r.2 (.getPictureCode username r.1.1 r.1.2)) := rfl
  simp only [CheckCode, e1]
  clear e1
  clear_value r
  obtain ⟨⟨ans, err⟩, w⟩ := r
  simp only []
  rcases err with _ | x
  · by_cases c : ans = code <;> simp [c, Sys.step]
  · simp [Sys.step]

/-- C11: `CheckCode` at a world whose cache holds no picture answer for `alice`,
where the cache read returns the empty string and an error.  The boolean
returned is `true`, next to the error, although no answer was read. -/
theorem CheckCode_lookup_failure_reports_true :
    (demoDeps.GetPictureCode "alice" demoEmpty).1 =
      ("", some (.errorString 0 "picture code expired")) ∧
    (CheckCode demoDeps "alice" "abcd" ⟨demoEmpty, []⟩).1 =
      (true, some (.errorString 0 "picture code expired")) ∧
    (CheckCode demoDeps "alice" "abcd" ⟨demoEmpty, []⟩).2.trace =
      [.getPictureCode "alice" "" (some (.errorString 0 "picture code expired"))] := by
  decide

end Theorems

end OnlineJudge
